import Mathlib

/-!
Verification development for the DryWellOCCT repository.

The repository models a stormwater drywell as a collection of typed 3D
entities (tubes and cylinders with transform/material/edge state), persists
that collection to JSON, and procedurally generates a radial-by-vertical grid
of annular tube cells plus three shaft cylinders from eight scalar
parameters.

This file shallowly embeds the relevant C++ classes:
  - a JSON value model standing for QJsonValue / QJsonObject / QJsonArray;
  - OcctGeo3DObject state and setters, OcctTubeObject, OcctCylinderObject,
    their toJson / fromJson codecs and the factory OcctGeo3DObject.createFromJson;
  - OcctGeo3DObjectSet (QMap-backed named collection) with addObject,
    removeObject, toJson, fromJson;
  - OcctDrywellSystem with generateAggregateZone, generateBelowWellZone,
    generateWellCylinders, getTube and fromJson.

C++ float arithmetic is embedded as exact rational arithmetic (ℚ); machine
integer indices are ℤ.  QMap and QJsonObject are embedded as association
lists; both Qt containers keep keys unique and iterate them in ascending
order, which reachable values satisfy and which theorems assume explicitly
where it matters.
-/

namespace DryWell

/-- JSON value (QJsonValue).  An object is an association list of fields;
for objects built by Qt the keys are unique and sorted ascending. -/
inductive Json where
  | str (s : String)
  | num (q : ℚ)
  | boolean (b : Bool)
  | obj (fields : List (String × Json))
  | arr (elems : List Json)
  | null

/-- Association-list field lookup (QMap::find / QJsonObject::value). -/
def mlookup {α : Type} : List (String × α) → String → Option α
  | [], _ => none
  | (k2, v) :: rest, k => if k2 = k then some v else mlookup rest k

/-- QMap::insert / QJsonObject::operator[]=: replace the value when the key
is present, otherwise insert keeping keys in ascending order. -/
def minsert {α : Type} (k : String) (v : α) : List (String × α) → List (String × α)
  | [] => [(k, v)]
  | (k2, v2) :: rest =>
    if k < k2 then (k, v) :: (k2, v2) :: rest
    else if k = k2 then (k, v) :: rest
    else (k2, v2) :: minsert k v rest

/-- QMap::erase at the iterator returned by find: drop the first entry with
the given key. -/
def merase {α : Type} (k : String) : List (String × α) → List (String × α)
  | [] => []
  | (k2, v) :: rest => if k2 = k then rest else (k2, v) :: merase k rest

/-- The QMap / QJsonObject representation invariant: keys pairwise ascending. -/
def keysSorted {α : Type} : List (String × α) → Bool
  | [] => true
  | p :: rest => (rest.all fun q => decide (p.1 < q.1)) && keysSorted rest

/-- QJsonObject::contains. -/
def jContains (fields : List (String × Json)) (k : String) : Bool :=
  (mlookup fields k).isSome

/-- QJsonValue::toDouble with default 0. -/
def jNum (fields : List (String × Json)) (k : String) : ℚ :=
  match mlookup fields k with
  | some (.num q) => q
  | _ => 0

/-- QJsonValue::toInt with default 0 (only whole numbers convert). -/
def jInt (fields : List (String × Json)) (k : String) : ℤ :=
  match mlookup fields k with
  | some (.num q) => if q.den = 1 then q.num else 0
  | _ => 0

/-- QJsonValue::toString with default "". -/
def jStr (fields : List (String × Json)) (k : String) : String :=
  match mlookup fields k with
  | some (.str s) => s
  | _ => ""

/-- QJsonValue::toBool with default false. -/
def jBool (fields : List (String × Json)) (k : String) : Bool :=
  match mlookup fields k with
  | some (.boolean b) => b
  | _ => false

/-- QJsonValue::toObject with default empty. -/
def jObj (fields : List (String × Json)) (k : String) : List (String × Json) :=
  match mlookup fields k with
  | some (.obj o) => o
  | _ => []

/-- QJsonValue::isObject of a field. -/
def jIsObj (fields : List (String × Json)) (k : String) : Bool :=
  match mlookup fields k with
  | some (.obj _) => true
  | _ => false

/-- QJsonValue::toArray with default empty. -/
def jArr (fields : List (String × Json)) (k : String) : List Json :=
  match mlookup fields k with
  | some (.arr a) => a
  | _ => []

theorem mlookup_minsert {α : Type} (l : List (String × α)) (k n : String) (v : α) :
    mlookup (minsert k v l) n = if n = k then some v else mlookup l n := by
  induction l with
  | nil =>
    by_cases h : n = k
    · subst h; simp [minsert, mlookup]
    · simp [minsert, mlookup, h, Ne.symm h]
  | cons p rest ih =>
    obtain ⟨k2, v2⟩ := p
    by_cases h1 : k < k2
    · simp only [minsert, if_pos h1, mlookup]
      by_cases h : n = k
      · subst h; simp
      · rw [if_neg (Ne.symm h), if_neg h]
    · by_cases h4 : k = k2
      · subst h4
        simp only [minsert, if_neg h1, if_pos rfl, mlookup]
        by_cases h : n = k
        · subst h; simp
        · rw [if_neg (Ne.symm h), if_neg (Ne.symm h), if_neg h]
      · simp only [minsert, if_neg h1, if_neg h4, mlookup, ih]
        by_cases h2 : k2 = n
        · subst h2
          have hnk : ¬ k2 = k := fun hh => h4 hh.symm
          rw [if_pos rfl, if_neg hnk]
          simp [mlookup]
        · rw [if_neg h2]
          by_cases h : n = k
          · rw [if_pos h, if_pos h]
          · rw [if_neg h, if_neg h, if_neg h2]

theorem mlookup_merase_ne {α : Type} (l : List (String × α)) (k n : String)
    (hne : n ≠ k) : mlookup (merase k l) n = mlookup l n := by
  induction l with
  | nil => simp [merase]
  | cons p rest ih =>
    obtain ⟨k2, v2⟩ := p
    by_cases h2 : k2 = k
    · subst h2
      rw [show merase k2 ((k2, v2) :: rest) = rest from by simp [merase]]
      simp only [mlookup]
      rw [if_neg (fun hh : k2 = n => hne hh.symm)]
    · simp only [merase, if_neg h2, mlookup]
      by_cases h3 : k2 = n
      · rw [if_pos h3, if_pos h3]
      · rw [if_neg h3, if_neg h3, ih]

/-! ## Geometric entity model (OcctGeo3DObject and its concrete shapes) -/

/-- QVector3D. -/
structure Vec3 where
  x : ℚ
  y : ℚ
  z : ℚ
deriving DecidableEq, Repr

/-- QColor with integer channels (red, green, blue, alpha). -/
structure Color where
  r : ℤ
  g : ℤ
  b : ℤ
  a : ℤ
deriving DecidableEq, Repr

/-- Observable state shared by all OcctGeo3DObject subclasses: transform,
material, visibility and edge style.  The AIS/render-side caches that the
setters refresh are display artifacts, not entity state. -/
structure GeoState where
  position : Vec3
  rotation : Vec3
  scale : Vec3
  diffuseColor : Color
  ambientColor : Color
  specularColor : Color
  shininess : ℚ
  opacity : ℚ
  visible : Bool
  showEdges : Bool
  edgeColor : Color
  edgeWidth : ℚ
deriving DecidableEq, Repr

/-- State established by the OcctGeo3DObject constructor. -/
def defaultGeoState : GeoState where
  position := ⟨0, 0, 0⟩
  rotation := ⟨0, 0, 0⟩
  scale := ⟨1, 1, 1⟩
  diffuseColor := ⟨102, 84, 35, 255⟩
  ambientColor := ⟨68, 51, 17, 255⟩
  specularColor := ⟨255, 255, 255, 255⟩
  shininess := 50
  opacity := 1
  visible := true
  showEdges := false
  edgeColor := ⟨0, 0, 0, 255⟩
  edgeWidth := 1

/-- qBound(min, val, max) = qMax(min, qMin(max, val)). -/
def qBound (lo v hi : ℚ) : ℚ := max lo (min hi v)

namespace OcctGeo3DObject

def setPosition (g : GeoState) (p : Vec3) : GeoState := { g with position := p }

def setRotation (g : GeoState) (r : Vec3) : GeoState := { g with rotation := r }

def setScale (g : GeoState) (s : Vec3) : GeoState := { g with scale := s }

def setDiffuseColor (g : GeoState) (c : Color) : GeoState := { g with diffuseColor := c }

def setAmbientColor (g : GeoState) (c : Color) : GeoState := { g with ambientColor := c }

def setSpecularColor (g : GeoState) (c : Color) : GeoState := { g with specularColor := c }

def setShininess (g : GeoState) (s : ℚ) : GeoState := { g with shininess := s }

/-- setOpacity clamps to [0, 1] via qBound. -/
def setOpacity (g : GeoState) (o : ℚ) : GeoState := { g with opacity := qBound 0 o 1 }

def setVisible (g : GeoState) (v : Bool) : GeoState := { g with visible := v }

def setShowEdges (g : GeoState) (s : Bool) : GeoState := { g with showEdges := s }

def setEdgeColor (g : GeoState) (c : Color) : GeoState := { g with edgeColor := c }

def setEdgeWidth (g : GeoState) (w : ℚ) : GeoState := { g with edgeWidth := w }

end OcctGeo3DObject

/-- OcctTubeObject: base state plus innerRadius / outerRadius / height. -/
structure TubeState where
  geo : GeoState
  innerRadius : ℚ
  outerRadius : ℚ
  height : ℚ
deriving DecidableEq, Repr

/-- OcctTubeObject default constructor. -/
def defaultTubeState : TubeState where
  geo := defaultGeoState
  innerRadius := 1/2
  outerRadius := 1
  height := 2

namespace OcctTubeObject

/-- setInnerRadius: guarded assignment (shape recreation is render-side). -/
def setInnerRadius (t : TubeState) (r : ℚ) : TubeState :=
  if t.innerRadius ≠ r then { t with innerRadius := r } else t

def setOuterRadius (t : TubeState) (r : ℚ) : TubeState :=
  if t.outerRadius ≠ r then { t with outerRadius := r } else t

def setHeight (t : TubeState) (h : ℚ) : TubeState :=
  if t.height ≠ h then { t with height := h } else t

/-- setDimensions: three guarded assignments in sequence. -/
def setDimensions (t : TubeState) (ir or2 h : ℚ) : TubeState :=
  let t1 := if t.innerRadius ≠ ir then { t with innerRadius := ir } else t
  let t2 := if t1.outerRadius ≠ or2 then { t1 with outerRadius := or2 } else t1
  if t2.height ≠ h then { t2 with height := h } else t2

end OcctTubeObject

/-- OcctCylinderObject: base state plus radius / length. -/
structure CylState where
  geo : GeoState
  radius : ℚ
  length : ℚ
deriving DecidableEq, Repr

/-- OcctCylinderObject default constructor. -/
def defaultCylState : CylState where
  geo := defaultGeoState
  radius := 1
  length := 2

namespace OcctCylinderObject

def setRadius (c : CylState) (r : ℚ) : CylState :=
  if c.radius ≠ r then { c with radius := r } else c

def setLength (c : CylState) (l : ℚ) : CylState :=
  if c.length ≠ l then { c with length := l } else c

/-- setDimensions: two guarded assignments in sequence. -/
def setDimensions (c : CylState) (r l : ℚ) : CylState :=
  let c1 := if c.radius ≠ r then { c with radius := r } else c
  if c1.length ≠ l then { c1 with length := l } else c1

end OcctCylinderObject

/-- A concrete geometric entity: one of the registered shape kinds. -/
inductive Entity where
  | tube (t : TubeState)
  | cylinder (c : CylState)
deriving DecidableEq, Repr

/-- getObjectType. -/
def Entity.objectType : Entity → String
  | .tube _ => "Tube"
  | .cylinder _ => "Cylinder"

/-- The base-class state of an entity. -/
def Entity.geo : Entity → GeoState
  | .tube t => t.geo
  | .cylinder c => c.geo

/-! ## Entity serialization (toJson / fromJson / factory)

QJsonObject observes fields only through keyed lookup, so an entity document
is embedded as the list of its fields in C++ assignment order. -/

/-- {"x": ..., "y": ..., "z": ...} for a QVector3D. -/
def vec3Json (v : Vec3) : Json :=
  .obj [("x", .num v.x), ("y", .num v.y), ("z", .num v.z)]

/-- {"r", "g", "b", "a"} for a material QColor. -/
def colorJson4 (c : Color) : Json :=
  .obj [("r", .num c.r), ("g", .num c.g), ("b", .num c.b), ("a", .num c.a)]

/-- {"r", "g", "b"} for the edge QColor (alpha is not serialized). -/
def colorJson3 (c : Color) : Json :=
  .obj [("r", .num c.r), ("g", .num c.g), ("b", .num c.b)]

/-- The fields common to OcctTubeObject::toJson and OcctCylinderObject::toJson
(type is emitted by each class; shape section appended by each class). -/
def geoJsonFields (ty : String) (g : GeoState) : List (String × Json) :=
  [ ("type", .str ty)
  , ("transform", .obj
      [ ("position", vec3Json g.position)
      , ("rotation", vec3Json g.rotation)
      , ("scale", vec3Json g.scale) ])
  , ("material", .obj
      [ ("diffuse", colorJson4 g.diffuseColor)
      , ("ambient", colorJson4 g.ambientColor)
      , ("specular", colorJson4 g.specularColor)
      , ("shininess", .num g.shininess) ])
  , ("visible", .boolean g.visible)
  , ("opacity", .num g.opacity)
  , ("showEdges", .boolean g.showEdges)
  , ("edgeColor", colorJson3 g.edgeColor)
  , ("edgeWidth", .num g.edgeWidth) ]

/-- OcctTubeObject::toJson. -/
def OcctTubeObject.toJson (t : TubeState) : List (String × Json) :=
  geoJsonFields "Tube" t.geo ++
    [ ("tube", .obj
        [ ("innerRadius", .num t.innerRadius)
        , ("outerRadius", .num t.outerRadius)
        , ("height", .num t.height) ]) ]

/-- OcctCylinderObject::toJson. -/
def OcctCylinderObject.toJson (c : CylState) : List (String × Json) :=
  geoJsonFields "Cylinder" c.geo ++
    [ ("cylinder", .obj
        [ ("radius", .num c.radius)
        , ("length", .num c.length) ]) ]

def Entity.toJson : Entity → List (String × Json)
  | .tube t => OcctTubeObject.toJson t
  | .cylinder c => OcctCylinderObject.toJson c

/-- The base-class portion of fromJson, identical in both subclasses:
apply the transform / material / visibility / edge setters for every section
present in the document. -/
def loadGeoFromJson (g0 : GeoState) (j : List (String × Json)) : GeoState :=
  let g := g0
  let g := if jContains j "transform" then
      let tr := jObj j "transform"
      let g := if jContains tr "position" then
          let p := jObj tr "position"
          OcctGeo3DObject.setPosition g ⟨jNum p "x", jNum p "y", jNum p "z"⟩
        else g
      let g := if jContains tr "rotation" then
          let p := jObj tr "rotation"
          OcctGeo3DObject.setRotation g ⟨jNum p "x", jNum p "y", jNum p "z"⟩
        else g
      let g := if jContains tr "scale" then
          let p := jObj tr "scale"
          OcctGeo3DObject.setScale g ⟨jNum p "x", jNum p "y", jNum p "z"⟩
        else g
      g
    else g
  let g := if jContains j "material" then
      let m := jObj j "material"
      let g := if jContains m "diffuse" then
          let c := jObj m "diffuse"
          OcctGeo3DObject.setDiffuseColor g ⟨jInt c "r", jInt c "g", jInt c "b", jInt c "a"⟩
        else g
      let g := if jContains m "ambient" then
          let c := jObj m "ambient"
          OcctGeo3DObject.setAmbientColor g ⟨jInt c "r", jInt c "g", jInt c "b", jInt c "a"⟩
        else g
      let g := if jContains m "specular" then
          let c := jObj m "specular"
          OcctGeo3DObject.setSpecularColor g ⟨jInt c "r", jInt c "g", jInt c "b", jInt c "a"⟩
        else g
      let g := if jContains m "shininess" then
          OcctGeo3DObject.setShininess g (jNum m "shininess")
        else g
      g
    else g
  let g := if jContains j "visible" then
      OcctGeo3DObject.setVisible g (jBool j "visible")
    else g
  let g := if jContains j "opacity" then
      OcctGeo3DObject.setOpacity g (jNum j "opacity")
    else g
  let g := if jContains j "showEdges" then
      OcctGeo3DObject.setShowEdges g (jBool j "showEdges")
    else g
  let g := if jContains j "edgeColor" then
      let c := jObj j "edgeColor"
      -- QColor(r, g, b) has alpha 255
      OcctGeo3DObject.setEdgeColor g ⟨jInt c "r", jInt c "g", jInt c "b", 255⟩
    else g
  let g := if jContains j "edgeWidth" then
      OcctGeo3DObject.setEdgeWidth g (jNum j "edgeWidth")
    else g
  g

/-- OcctTubeObject::fromJson: none encodes the C++ false return (type
mismatch); every other path returns true. -/
def OcctTubeObject.fromJson (t0 : TubeState) (j : List (String × Json)) :
    Option TubeState :=
  if jStr j "type" ≠ "Tube" then none
  else
    let t := { t0 with geo := loadGeoFromJson t0.geo j }
    let t := if jContains j "tube" then
        let tb := jObj j "tube"
        if jContains tb "innerRadius" && jContains tb "outerRadius" &&
            jContains tb "height" then
          OcctTubeObject.setDimensions t (jNum tb "innerRadius")
            (jNum tb "outerRadius") (jNum tb "height")
        else t
      else t
    some t

/-- OcctCylinderObject::fromJson. -/
def OcctCylinderObject.fromJson (c0 : CylState) (j : List (String × Json)) :
    Option CylState :=
  if jStr j "type" ≠ "Cylinder" then none
  else
    let c := { c0 with geo := loadGeoFromJson c0.geo j }
    let c := if jContains j "cylinder" then
        let cy := jObj j "cylinder"
        if jContains cy "radius" && jContains cy "length" then
          OcctCylinderObject.setDimensions c (jNum cy "radius") (jNum cy "length")
        else c
      else c
    some c

/-- OcctGeo3DObject::createFromJson.  The static factory registry holds the
two registrations performed at load time by occttubeobject.cpp and
occtcylinderobject.cpp: "Tube" and "Cylinder"; each factory default-constructs
the object, then fromJson is applied and a failure destroys the object. -/
def OcctGeo3DObject.createFromJson (j : List (String × Json)) : Option Entity :=
  if ¬ jContains j "type" then none
  else
    let ty := jStr j "type"
    if ty = "Tube" then (OcctTubeObject.fromJson defaultTubeState j).map Entity.tube
    else if ty = "Cylinder" then
      (OcctCylinderObject.fromJson defaultCylState j).map Entity.cylinder
    else none

/-! ## OcctGeo3DObjectSet: the named, owning collection (QMap-backed) -/

/-- The m_objects QMap of an OcctGeo3DObjectSet: names to owned entities. -/
abbrev ObjectSet := List (String × Entity)

namespace OcctGeo3DObjectSet

/-- addObject(name, object): null is a no-op; a prior occupant of the name is
removed (and destroyed) first, then the entity is inserted. -/
def addObject (s : ObjectSet) (name : String) (obj : Option Entity) : ObjectSet :=
  match obj with
  | none => s
  | some e =>
    let s1 := if (mlookup s name).isSome then merase name s else s
    minsert name e s1

/-- removeObject(name): true and erase when present, false otherwise. -/
def removeObject (s : ObjectSet) (name : String) : Bool × ObjectSet :=
  if (mlookup s name).isSome then (true, merase name s) else (false, s)

/-- getObject(name). -/
def getObject (s : ObjectSet) (name : String) : Option Entity :=
  mlookup s name

/-- contains(name). -/
def contains (s : ObjectSet) (name : String) : Bool :=
  (mlookup s name).isSome

/-- The body of the fromJson load loop for one document entry: entries that
are not objects are skipped, the factory is consulted, a null result is
skipped, otherwise the entity is added under the document key. -/
def loadEntry (acc : ObjectSet) (p : String × Json) : ObjectSet :=
  match p.2 with
  | .obj data =>
    match OcctGeo3DObject.createFromJson data with
    | some e => addObject acc p.1 (some e)
    | none => acc
  | _ => acc

/-- toJson: {"version": "1.0", "objectCount": n, "objects": {...}}, the
objects sub-object built by inserting each entity document under its name
while iterating the QMap. -/
def toJson (s : ObjectSet) : List (String × Json) :=
  [ ("version", .str "1.0")
  , ("objectCount", .num s.length)
  , ("objects", .obj
      (s.foldl (fun acc p => minsert p.1 (Json.obj (Entity.toJson p.2)) acc) [])) ]

/-- fromJson: clear() discards the prior contents, then version and objects
are required; each object entry is decoded through the factory, entries that
are not objects or fail to decode are skipped. -/
def fromJson (_prior : ObjectSet) (j : List (String × Json)) : Bool × ObjectSet :=
  if ¬ jContains j "version" then (false, [])
  else if ¬ (jContains j "objects" && jIsObj j "objects") then (false, [])
  else
    let objs := jObj j "objects"
    (true, objs.foldl loadEntry [])

end OcctGeo3DObjectSet

/-! ## OcctDrywellSystem: the procedural grid generator

The tube and cylinder records below embed the geometric state createTube /
createBelowWellTube / generateWellCylinders establish on each created object:
dimensions, center depth (x and y are always 0), opacity and edge flag.  The
hue gradient assigned through QColor::setHsvF is presentation styling that no
claim refers to and is not modelled. -/

/-- Geometric state of one aggregate-zone or below-well tube cell. -/
structure DryTube where
  innerRadius : ℚ
  outerRadius : ℚ
  height : ℚ
  z : ℚ
  opacity : ℚ
  showEdges : Bool
deriving DecidableEq, Repr

/-- Geometric state of one well shaft cylinder. -/
structure DryCyl where
  radius : ℚ
  length : ℚ
  z : ℚ
  opacity : ℚ
  showEdges : Bool
deriving DecidableEq, Repr

/-- OcctDrywellSystem state: the eight parameters, the two tube lists and the
three shaft cylinder slots. -/
structure OcctDrywellSystem where
  wellRadius : ℚ
  chamberDepth : ℚ
  aggregateDepth : ℚ
  domainRadius : ℚ
  depthToGroundwater : ℚ
  nr : ℤ
  nz_w : ℤ
  nz_g : ℤ
  tubes : List DryTube
  belowWellTubes : List DryTube
  chamberCylinder : Option DryCyl
  aggregateWellCylinder : Option DryCyl
  belowWellCylinder : Option DryCyl
deriving DecidableEq, Repr

namespace OcctDrywellSystem

/-- clear(): destroy both tube lists and all three cylinders. -/
def clear (s : OcctDrywellSystem) : OcctDrywellSystem :=
  { s with
    tubes := []
    belowWellTubes := []
    chamberCylinder := none
    aggregateWellCylinder := none
    belowWellCylinder := none }

/-- createTube(radialIndex, verticalIndex): the tube appended to m_tubes. -/
def createTube (s : OcctDrywellSystem) (radialIndex verticalIndex : ℤ) : DryTube :=
  let dr := (s.domainRadius - s.wellRadius) / (s.nr : ℚ)
  let dz := s.aggregateDepth / (s.nz_w : ℚ)
  let z_top := -s.chamberDepth - (verticalIndex : ℚ) * dz
  { innerRadius := s.wellRadius + (radialIndex : ℚ) * dr
    outerRadius := s.wellRadius + ((radialIndex : ℚ) + 1) * dr
    height := dz
    z := z_top - dz / 2
    opacity := 3/5
    showEdges := true }

/-- createBelowWellTube(radialIndex, verticalIndex). -/
def createBelowWellTube (s : OcctDrywellSystem) (radialIndex verticalIndex : ℤ) :
    DryTube :=
  let dr := (s.domainRadius - s.wellRadius) / (s.nr : ℚ)
  let dz := (s.depthToGroundwater - (s.chamberDepth + s.aggregateDepth)) / (s.nz_g : ℚ)
  let z_top := -(s.chamberDepth + s.aggregateDepth) - (verticalIndex : ℚ) * dz
  { innerRadius := s.wellRadius + (radialIndex : ℚ) * dr
    outerRadius := s.wellRadius + ((radialIndex : ℚ) + 1) * dr
    height := dz
    z := z_top - dz / 2
    opacity := 3/5
    showEdges := true }

/-- generateAggregateZone(): clear() then append createTube(i, j) for each
radial index i (outer loop) and vertical index j (inner loop). -/
def generateAggregateZone (s : OcctDrywellSystem) : OcctDrywellSystem :=
  { clear s with
    tubes := (List.range s.nr.toNat).flatMap fun (i : ℕ) =>
      (List.range s.nz_w.toNat).map fun (j : ℕ) => createTube s i j }

/-- generateBelowWellZone(): discard only m_belowWellTubes, then append
createBelowWellTube(i, j) in the same loop order. -/
def generateBelowWellZone (s : OcctDrywellSystem) : OcctDrywellSystem :=
  { s with
    belowWellTubes := (List.range s.nr.toNat).flatMap fun (i : ℕ) =>
      (List.range s.nz_g.toNat).map fun (j : ℕ) => createBelowWellTube s i j }

/-- generateWellCylinders(): replace the three shaft cylinders. -/
def generateWellCylinders (s : OcctDrywellSystem) : OcctDrywellSystem :=
  { s with
    chamberCylinder := some
      { radius := s.wellRadius, length := s.chamberDepth
        z := -s.chamberDepth / 2, opacity := 7/10, showEdges := true }
    aggregateWellCylinder := some
      { radius := s.wellRadius, length := s.aggregateDepth
        z := -s.chamberDepth - s.aggregateDepth / 2, opacity := 3/5, showEdges := true }
    belowWellCylinder := some
      { radius := s.wellRadius
        length := s.depthToGroundwater - (s.chamberDepth + s.aggregateDepth)
        z := -(s.chamberDepth + s.aggregateDepth) -
          (s.depthToGroundwater - (s.chamberDepth + s.aggregateDepth)) / 2
        opacity := 3/5, showEdges := true } }

/-- generateAll(): the three generators in order. -/
def generateAll (s : OcctDrywellSystem) : OcctDrywellSystem :=
  generateWellCylinders (generateBelowWellZone (generateAggregateZone s))

/-- getRadialCellSize(). -/
def getRadialCellSize (s : OcctDrywellSystem) : ℚ :=
  (s.domainRadius - s.wellRadius) / (s.nr : ℚ)

/-- getVerticalCellSize(). -/
def getVerticalCellSize (s : OcctDrywellSystem) : ℚ :=
  s.aggregateDepth / (s.nz_w : ℚ)

/-- getTubeIndex: row-major flat index. -/
def getTubeIndex (s : OcctDrywellSystem) (radialIndex verticalIndex : ℤ) : ℤ :=
  radialIndex * s.nz_w + verticalIndex

/-- getTube(radialIndex, verticalIndex): bounds-checked lookup. -/
def getTube (s : OcctDrywellSystem) (radialIndex verticalIndex : ℤ) : Option DryTube :=
  if radialIndex < 0 ∨ s.nr ≤ radialIndex ∨
      verticalIndex < 0 ∨ s.nz_w ≤ verticalIndex then none
  else
    let index := getTubeIndex s radialIndex verticalIndex
    if 0 ≤ index ∧ index < (s.tubes.length : ℤ) then s.tubes[index.toNat]?
    else none

end OcctDrywellSystem

/-- The effect of default-constructing an OcctTubeObject and running its
fromJson on one document, projected onto the DryTube fields (position x and
y and the colors are not modelled, see above); none encodes the C++ false
return, on which the loader deletes the tube and skips it. -/
def loadTube (j : List (String × Json)) : Option DryTube :=
  if jStr j "type" ≠ "Tube" then none
  else
    let z := if jContains j "transform" then
        let tr := jObj j "transform"
        if jContains tr "position" then jNum (jObj tr "position") "z" else 0
      else 0
    let op := if jContains j "opacity" then qBound 0 (jNum j "opacity") 1 else 1
    let se := if jContains j "showEdges" then jBool j "showEdges" else false
    let dims : ℚ × ℚ × ℚ := if jContains j "tube" then
        let tb := jObj j "tube"
        if jContains tb "innerRadius" && jContains tb "outerRadius" &&
            jContains tb "height" then
          (jNum tb "innerRadius", jNum tb "outerRadius", jNum tb "height")
        else (1/2, 1, 2)
      else (1/2, 1, 2)
    some { innerRadius := dims.1, outerRadius := dims.2.1, height := dims.2.2
           z := z, opacity := op, showEdges := se }

/-- One element of the "tubes" / "belowWellTubes" arrays: toObject (empty
object for non-objects), then the tube loader. -/
def loadTubeValue (v : Json) : Option DryTube :=
  loadTube (match v with | .obj o => o | _ => [])

/-- OcctDrywellSystem::fromJson: clear() first, then the eight parameters are
all required (failure otherwise), then the optional tube arrays are loaded,
skipping elements whose tube fromJson fails. -/
def OcctDrywellSystem.fromJson (s : OcctDrywellSystem) (j : List (String × Json)) :
    Bool × OcctDrywellSystem :=
  let s0 := OcctDrywellSystem.clear s
  if ¬ (jContains j "wellRadius" && jContains j "chamberDepth" &&
      jContains j "aggregateDepth" && jContains j "domainRadius" &&
      jContains j "depthToGroundwater" && jContains j "nr" &&
      jContains j "nz_w" && jContains j "nz_g") then
    (false, s0)
  else
    let s1 := { s0 with
      wellRadius := jNum j "wellRadius"
      chamberDepth := jNum j "chamberDepth"
      aggregateDepth := jNum j "aggregateDepth"
      domainRadius := jNum j "domainRadius"
      depthToGroundwater := jNum j "depthToGroundwater"
      nr := jInt j "nr"
      nz_w := jInt j "nz_w"
      nz_g := jInt j "nz_g" }
    let s2 := if jContains j "tubes" then
        { s1 with tubes := (jArr j "tubes").filterMap loadTubeValue }
      else s1
    let s3 := if jContains j "belowWellTubes" then
        { s2 with belowWellTubes := (jArr j "belowWellTubes").filterMap loadTubeValue }
      else s2
    (true, s3)

/-! ## Grid indexing lemmas -/

theorem grid_length {β : Type} (m n : ℕ) (f : ℕ → ℕ → β) :
    ((List.range m).flatMap fun i => (List.range n).map (f i)).length = m * n := by
  induction m with
  | zero => simp
  | succ m ih =>
    rw [List.range_succ, List.flatMap_append, List.length_append, ih]
    simp [Nat.succ_mul]

theorem grid_getElem {β : Type} (m n i j : ℕ) (f : ℕ → ℕ → β)
    (hi : i < m) (hj : j < n) :
    ((List.range m).flatMap fun i => (List.range n).map (f i))[i * n + j]? =
      some (f i j) := by
  induction m with
  | zero => omega
  | succ m ih =>
    rw [List.range_succ, List.flatMap_append]
    rcases Nat.lt_or_ge i m with h | h
    · rw [List.getElem?_append]
      have hlt : i * n + j < m * n := by
        have h1 : i * n + j < (i + 1) * n := by
          rw [Nat.succ_mul]; omega
        have h2 : (i + 1) * n ≤ m * n := Nat.mul_le_mul_right n (by omega)
        omega
      rw [if_pos (by rw [grid_length]; exact hlt)]
      exact ih h
    · have hie : i = m := by omega
      subst hie
      have hlen : ((List.range i).flatMap fun a =>
          (List.range n).map (f a)).length = i * n := grid_length i n f
      rw [List.getElem?_append_right (by rw [hlen]; omega)]
      rw [hlen]
      have hsub : i * n + j - i * n = j := by omega
      rw [hsub]
      simp only [List.flatMap_cons, List.flatMap_nil, List.append_nil]
      rw [List.getElem?_map, List.getElem?_range hj]
      rfl

theorem grid_mem {β : Type} (m n : ℕ) (f : ℕ → ℕ → β) (t : β) :
    t ∈ ((List.range m).flatMap fun i => (List.range n).map (f i)) ↔
      ∃ i < m, ∃ j < n, t = f i j := by
  simp only [List.mem_flatMap, List.mem_map, List.mem_range]
  constructor
  · rintro ⟨i, hi, j, hj, rfl⟩
    exact ⟨i, hi, j, hj, rfl⟩
  · rintro ⟨i, hi, j, hj, rfl⟩
    exact ⟨i, hi, j, hj, rfl⟩

/-! ## Claims about the grid generator -/

open OcctDrywellSystem

/-- C5: generateWellCylinders() produces exactly three cylinders of radius
wellRadius: one of length chamberDepth centered at z = −chamberDepth/2, one
of length aggregateDepth centered at z = −chamberDepth − aggregateDepth/2,
and one of length depthToGroundwater − (chamberDepth + aggregateDepth)
centered at the midpoint of [−(chamberDepth+aggregateDepth),
−depthToGroundwater]. -/
theorem generateWellCylinders_three_shafts (s : OcctDrywellSystem) :
    ((generateWellCylinders s).chamberCylinder.map fun c => (c.radius, c.length, c.z))
      = some (s.wellRadius, s.chamberDepth, -s.chamberDepth / 2) ∧
    ((generateWellCylinders s).aggregateWellCylinder.map fun c => (c.radius, c.length, c.z))
      = some (s.wellRadius, s.aggregateDepth, -s.chamberDepth - s.aggregateDepth / 2) ∧
    ((generateWellCylinders s).belowWellCylinder.map fun c => (c.radius, c.length, c.z))
      = some (s.wellRadius, s.depthToGroundwater - (s.chamberDepth + s.aggregateDepth),
          (-(s.chamberDepth + s.aggregateDepth) + -s.depthToGroundwater) / 2) := by
  refine ⟨rfl, rfl, ?_⟩
  simp [generateWellCylinders]
  ring

/-- C1: with nr > 0 and nz_w > 0, generateAggregateZone() creates exactly
nr·nz_w tubes in row-major order (radial index outer, vertical inner); the
tube at (i, j) has innerRadius = wellRadius + i·dr,
outerRadius = wellRadius + (i+1)·dr with dr = (domainRadius − wellRadius)/nr,
height dz = aggregateDepth/nz_w and center depth
z = −chamberDepth − (j + 1/2)·dz. -/
theorem generateAggregateZone_grid (s : OcctDrywellSystem)
    (hnr : 0 < s.nr) (hnzw : 0 < s.nz_w) :
    (generateAggregateZone s).tubes.length = s.nr.toNat * s.nz_w.toNat ∧
    ∀ i j : ℕ, i < s.nr.toNat → j < s.nz_w.toNat →
      (generateAggregateZone s).tubes[i * s.nz_w.toNat + j]? = some
        { innerRadius := s.wellRadius +
            (i : ℚ) * ((s.domainRadius - s.wellRadius) / (s.nr : ℚ))
          outerRadius := s.wellRadius +
            ((i : ℚ) + 1) * ((s.domainRadius - s.wellRadius) / (s.nr : ℚ))
          height := s.aggregateDepth / (s.nz_w : ℚ)
          z := -s.chamberDepth - ((j : ℚ) + 1/2) * (s.aggregateDepth / (s.nz_w : ℚ))
          opacity := 3/5
          showEdges := true } := by
  have htubes : (generateAggregateZone s).tubes =
      ((List.range s.nr.toNat).flatMap fun (i : ℕ) =>
        (List.range s.nz_w.toNat).map fun (j : ℕ) => createTube s i j) := rfl
  constructor
  · rw [htubes]
    exact grid_length s.nr.toNat s.nz_w.toNat _
  · intro i j hi hj
    rw [htubes, grid_getElem s.nr.toNat s.nz_w.toNat i j _ hi hj]
    simp only [createTube, Option.some.injEq, DryTube.mk.injEq]
    exact ⟨by push_cast; ring, by push_cast; ring, trivial, by push_cast; ring, trivial, trivial⟩

/-- C6: after generateAggregateZone() with nr, nz_w > 0, getTube(i, j) for in
range indices returns the tube stored at flat position i·nz_w + j, and any
out-of-range index (i < 0, i ≥ nr, j < 0 or j ≥ nz_w) returns absent. -/
theorem getTube_flat_lookup (s : OcctDrywellSystem)
    (hnr : 0 < s.nr) (hnzw : 0 < s.nz_w) :
    (∀ i j : ℤ, 0 ≤ i → i < s.nr → 0 ≤ j → j < s.nz_w →
      getTube (generateAggregateZone s) i j =
        (generateAggregateZone s).tubes[(i * s.nz_w + j).toNat]?) ∧
    (∀ i j : ℤ, i < 0 ∨ s.nr ≤ i ∨ j < 0 ∨ s.nz_w ≤ j →
      getTube (generateAggregateZone s) i j = none) := by
  have hlen : ((generateAggregateZone s).tubes.length : ℤ) = s.nr * s.nz_w := by
    rw [show (generateAggregateZone s).tubes =
        ((List.range s.nr.toNat).flatMap fun (i : ℕ) =>
          (List.range s.nz_w.toNat).map fun (j : ℕ) => createTube s i j) from rfl]
    rw [grid_length]
    push_cast [Int.toNat_of_nonneg hnr.le, Int.toNat_of_nonneg hnzw.le]
    ring
  constructor
  · intro i j hi0 hi hj0 hj
    have hcond : ¬ (i < 0 ∨ (generateAggregateZone s).nr ≤ i ∨
        j < 0 ∨ (generateAggregateZone s).nz_w ≤ j) := by
      show ¬ (i < 0 ∨ s.nr ≤ i ∨ j < 0 ∨ s.nz_w ≤ j)
      omega
    have hidx0 : 0 ≤ i * s.nz_w + j :=
      add_nonneg (mul_nonneg hi0 hnzw.le) hj0
    have hidx1 : i * s.nz_w + j < s.nr * s.nz_w := by
      have h1 : i * s.nz_w + j < (i + 1) * s.nz_w := by
        have : (i + 1) * s.nz_w = i * s.nz_w + s.nz_w := by ring
        omega
      have h2 : (i + 1) * s.nz_w ≤ s.nr * s.nz_w :=
        mul_le_mul_of_nonneg_right (by omega) hnzw.le
      omega
    have hcond2 : 0 ≤ getTubeIndex (generateAggregateZone s) i j ∧
        getTubeIndex (generateAggregateZone s) i j <
          ((generateAggregateZone s).tubes.length : ℤ) := by
      show 0 ≤ i * s.nz_w + j ∧
        i * s.nz_w + j < ((generateAggregateZone s).tubes.length : ℤ)
      exact ⟨hidx0, by rw [hlen]; exact hidx1⟩
    simp only [getTube, if_neg hcond, if_pos hcond2]
    rfl
  · intro i j h
    simp only [getTube]
    rw [if_pos (show i < 0 ∨ (generateAggregateZone s).nr ≤ i ∨
      j < 0 ∨ (generateAggregateZone s).nz_w ≤ j from h)]

/-- A small concrete drywell parameter set, used by witnesses and
counterexamples. -/
def sampleSystem : OcctDrywellSystem where
  wellRadius := 1/2
  chamberDepth := 1
  aggregateDepth := 2
  domainRadius := 5
  depthToGroundwater := 10
  nr := 2
  nz_w := 2
  nz_g := 1
  tubes := []
  belowWellTubes := []
  chamberCylinder := none
  aggregateWellCylinder := none
  belowWellCylinder := none

/-- C7 counterexample: on a system whose below-well tubes and shaft cylinders
have been generated, generateAggregateZone() does not leave them present: it
calls clear(), which destroys the below-well tube list and all three shaft
cylinders. -/
theorem generateAggregateZone_not_local :
    (generateWellCylinders (generateBelowWellZone sampleSystem)).belowWellTubes ≠ [] ∧
    (generateWellCylinders (generateBelowWellZone sampleSystem)).chamberCylinder ≠ none ∧
    (generateAggregateZone (generateWellCylinders
      (generateBelowWellZone sampleSystem))).belowWellTubes = [] ∧
    (generateAggregateZone (generateWellCylinders
      (generateBelowWellZone sampleSystem))).chamberCylinder = none := by
  refine ⟨by decide, by decide, rfl, rfl⟩

/-- C7 (amended): generateAggregateZone() begins with clear(), so it discards
not only the prior aggregate-zone tubes but also any below-well tubes and all
three shaft cylinders; the eight parameters are preserved and the new
aggregate-zone tube list is created in full. -/
theorem generateAggregateZone_clears_everything (s : OcctDrywellSystem) :
    (generateAggregateZone s).belowWellTubes = [] ∧
    (generateAggregateZone s).chamberCylinder = none ∧
    (generateAggregateZone s).aggregateWellCylinder = none ∧
    (generateAggregateZone s).belowWellCylinder = none ∧
    (generateAggregateZone s).wellRadius = s.wellRadius ∧
    (generateAggregateZone s).chamberDepth = s.chamberDepth ∧
    (generateAggregateZone s).aggregateDepth = s.aggregateDepth ∧
    (generateAggregateZone s).domainRadius = s.domainRadius ∧
    (generateAggregateZone s).depthToGroundwater = s.depthToGroundwater ∧
    (generateAggregateZone s).nr = s.nr ∧
    (generateAggregateZone s).nz_w = s.nz_w ∧
    (generateAggregateZone s).nz_g = s.nz_g ∧
    (generateAggregateZone s).tubes.length = s.nr.toNat * s.nz_w.toNat := by
  refine ⟨rfl, rfl, rfl, rfl, rfl, rfl, rfl, rfl, rfl, rfl, rfl, rfl, ?_⟩
  rw [show (generateAggregateZone s).tubes =
      ((List.range s.nr.toNat).flatMap fun (i : ℕ) =>
        (List.range s.nz_w.toNat).map fun (j : ℕ) => createTube s i j) from rfl]
  exact grid_length s.nr.toNat s.nz_w.toNat _

/-- C8: after generation, for fixed vertical index j the outerRadius of tube
(i, j) strictly increases with the radial index i, and every generated tube
has outerRadius = innerRadius + radialCellSize with
radialCellSize = (domainRadius − wellRadius)/nr. -/
theorem tubes_radial_monotone (s : OcctDrywellSystem)
    (hnr : 0 < s.nr) (hnzw : 0 < s.nz_w)
    (hwd : s.wellRadius < s.domainRadius) :
    (∀ j i1 i2 : ℕ, j < s.nz_w.toNat → i1 < i2 → i2 < s.nr.toNat →
      ∀ t1 t2 : DryTube,
        (generateAggregateZone s).tubes[i1 * s.nz_w.toNat + j]? = some t1 →
        (generateAggregateZone s).tubes[i2 * s.nz_w.toNat + j]? = some t2 →
        t1.outerRadius < t2.outerRadius) ∧
    (∀ t ∈ (generateAggregateZone s).tubes,
      t.outerRadius = t.innerRadius + getRadialCellSize s) := by
  have htubes : (generateAggregateZone s).tubes =
      ((List.range s.nr.toNat).flatMap fun (i : ℕ) =>
        (List.range s.nz_w.toNat).map fun (j : ℕ) => createTube s i j) := rfl
  have hdr : 0 < (s.domainRadius - s.wellRadius) / (s.nr : ℚ) := by
    apply div_pos (sub_pos.mpr hwd)
    exact_mod_cast hnr
  constructor
  · intro j i1 i2 hj h12 hi2 t1 t2 ht1 ht2
    rw [htubes, grid_getElem s.nr.toNat s.nz_w.toNat i1 j _ (by omega) hj] at ht1
    rw [htubes, grid_getElem s.nr.toNat s.nz_w.toNat i2 j _ hi2 hj] at ht2
    cases ht1; cases ht2
    show (createTube s i1 j).outerRadius < (createTube s i2 j).outerRadius
    simp only [createTube]
    apply add_lt_add_left
    apply mul_lt_mul_of_pos_right _ hdr
    have : (i1 : ℚ) < (i2 : ℚ) := by exact_mod_cast h12
    push_cast
    linarith
  · intro t ht
    rw [htubes, grid_mem] at ht
    obtain ⟨i, hi, j, hj, rfl⟩ := ht
    simp only [createTube, getRadialCellSize]
    ring

/-- Witness for C1 at the sample parameters. -/
theorem generateAggregateZone_grid_witness :
    (0 : ℤ) < sampleSystem.nr ∧ (0 : ℤ) < sampleSystem.nz_w ∧
    (generateAggregateZone sampleSystem).tubes.length =
      sampleSystem.nr.toNat * sampleSystem.nz_w.toNat :=
  ⟨by decide, by decide,
    (generateAggregateZone_grid sampleSystem (by decide) (by decide)).1⟩

/-- Witness for C6 at the sample parameters: one in-range and one
out-of-range lookup. -/
theorem getTube_flat_lookup_witness :
    (0 : ℤ) < sampleSystem.nr ∧ (0 : ℤ) < sampleSystem.nz_w ∧
    getTube (generateAggregateZone sampleSystem) 1 1 =
      (generateAggregateZone sampleSystem).tubes[((1 : ℤ) * sampleSystem.nz_w + 1).toNat]? ∧
    getTube (generateAggregateZone sampleSystem) 3 0 = none :=
  ⟨by decide, by decide,
    (getTube_flat_lookup sampleSystem (by decide) (by decide)).1 1 1
      (by decide) (by decide) (by decide) (by decide),
    (getTube_flat_lookup sampleSystem (by decide) (by decide)).2 3 0
      (Or.inr (Or.inl (by decide)))⟩

/-- Witness for C8 at the sample parameters: the radial neighbours (0,0) and
(1,0). -/
theorem tubes_radial_monotone_witness :
    ((0 : ℤ) < sampleSystem.nr ∧ (0 : ℤ) < sampleSystem.nz_w ∧
      sampleSystem.wellRadius < sampleSystem.domainRadius) ∧
    (createTube sampleSystem 0 0).outerRadius <
      (createTube sampleSystem 1 0).outerRadius := by
  have hw : sampleSystem.wellRadius < sampleSystem.domainRadius := by
    norm_num [sampleSystem]
  have h0 : (generateAggregateZone sampleSystem).tubes[0 * sampleSystem.nz_w.toNat + 0]? =
      some (createTube sampleSystem 0 0) := by
    rw [show (generateAggregateZone sampleSystem).tubes =
        ((List.range sampleSystem.nr.toNat).flatMap fun (i : ℕ) =>
          (List.range sampleSystem.nz_w.toNat).map fun (j : ℕ) =>
            createTube sampleSystem i j) from rfl]
    rw [grid_getElem sampleSystem.nr.toNat sampleSystem.nz_w.toNat 0 0 _
      (by decide) (by decide)]
    norm_cast
  have h1 : (generateAggregateZone sampleSystem).tubes[1 * sampleSystem.nz_w.toNat + 0]? =
      some (createTube sampleSystem 1 0) := by
    rw [show (generateAggregateZone sampleSystem).tubes =
        ((List.range sampleSystem.nr.toNat).flatMap fun (i : ℕ) =>
          (List.range sampleSystem.nz_w.toNat).map fun (j : ℕ) =>
            createTube sampleSystem i j) from rfl]
    rw [grid_getElem sampleSystem.nr.toNat sampleSystem.nz_w.toNat 1 0 _
      (by decide) (by decide)]
    norm_cast
  exact ⟨⟨by decide, by decide, hw⟩,
    (tubes_radial_monotone sampleSystem (by decide) (by decide) hw).1
      0 0 1 (by decide) (by decide) (by decide)
      (createTube sampleSystem 0 0) (createTube sampleSystem 1 0) h0 h1⟩

/-! ## Association-map invariant lemmas -/

theorem mem_minsert {α : Type} (l : List (String × α)) (k : String) (v : α)
    (q : String × α) (h : q ∈ minsert k v l) : q = (k, v) ∨ q ∈ l := by
  induction l with
  | nil => simpa [minsert] using h
  | cons p rest ih =>
    obtain ⟨k2, v2⟩ := p
    by_cases h1 : k < k2
    · simp only [minsert, if_pos h1, List.mem_cons] at h
      rcases h with h | h | h
      · exact Or.inl h
      · exact Or.inr (by simp [h])
      · exact Or.inr (by simp [h])
    · by_cases h4 : k = k2
      · simp only [minsert, if_neg h1, if_pos h4, List.mem_cons] at h
        rcases h with h | h
        · exact Or.inl h
        · exact Or.inr (by simp [h])
      · simp only [minsert, if_neg h1, if_neg h4, List.mem_cons] at h
        rcases h with h | h
        · exact Or.inr (by simp [h])
        · rcases ih h with h5 | h5
          · exact Or.inl h5
          · exact Or.inr (by simp [h5])

theorem mem_merase {α : Type} (l : List (String × α)) (k : String)
    (q : String × α) (h : q ∈ merase k l) : q ∈ l := by
  induction l with
  | nil => simpa [merase] using h
  | cons p rest ih =>
    obtain ⟨k2, v2⟩ := p
    by_cases h2 : k2 = k
    · simp only [merase, if_pos h2] at h
      exact by simp [h]
    · simp only [merase, if_neg h2, List.mem_cons] at h
      rcases h with h | h
      · simp [h]
      · simp [ih h]

theorem keysSorted_cons {α : Type} (p : String × α) (rest : List (String × α)) :
    keysSorted (p :: rest) = true ↔
      (∀ q ∈ rest, p.1 < q.1) ∧ keysSorted rest = true := by
  simp [keysSorted, List.all_eq_true]

theorem keysSorted_minsert {α : Type} (l : List (String × α)) (k : String) (v : α)
    (hs : keysSorted l = true) : keysSorted (minsert k v l) = true := by
  induction l with
  | nil => simp [minsert, keysSorted]
  | cons p rest ih =>
    obtain ⟨k2, v2⟩ := p
    rw [keysSorted_cons] at hs
    obtain ⟨hall, hrest⟩ := hs
    by_cases h1 : k < k2
    · simp only [minsert, if_pos h1]
      rw [keysSorted_cons]
      refine ⟨?_, by rw [keysSorted_cons]; exact ⟨hall, hrest⟩⟩
      intro q hq
      rcases List.mem_cons.mp hq with h | h
      · rw [h]; exact h1
      · exact lt_trans h1 (hall q h)
    · by_cases h4 : k = k2
      · simp only [minsert, if_neg h1, if_pos h4]
        rw [keysSorted_cons]
        exact ⟨fun q hq => h4 ▸ hall q hq, hrest⟩
      · simp only [minsert, if_neg h1, if_neg h4]
        rw [keysSorted_cons]
        refine ⟨?_, ih hrest⟩
        intro q hq
        rcases mem_minsert rest k v q hq with h | h
        · rw [h]
          exact lt_of_le_of_ne (le_of_not_lt h1) (Ne.symm h4)
        · exact hall q h
    
theorem keysSorted_merase {α : Type} (l : List (String × α)) (k : String)
    (hs : keysSorted l = true) : keysSorted (merase k l) = true := by
  induction l with
  | nil => simp [merase, keysSorted]
  | cons p rest ih =>
    obtain ⟨k2, v2⟩ := p
    rw [keysSorted_cons] at hs
    obtain ⟨hall, hrest⟩ := hs
    by_cases h2 : k2 = k
    · simp only [merase, if_pos h2]
      exact hrest
    · simp only [merase, if_neg h2]
      rw [keysSorted_cons]
      exact ⟨fun q hq => hall q (mem_merase rest k q hq), ih hrest⟩

theorem keysSorted_nodup {α : Type} (l : List (String × α))
    (hs : keysSorted l = true) : (l.map Prod.fst).Nodup := by
  induction l with
  | nil => simp
  | cons p rest ih =>
    rw [keysSorted_cons] at hs
    obtain ⟨hall, hrest⟩ := hs
    simp only [List.map_cons, List.nodup_cons]
    refine ⟨?_, ih hrest⟩
    intro hmem
    rcases List.mem_map.mp hmem with ⟨q, hq, hq2⟩
    exact absurd hq2.symm (ne_of_lt (hall q hq))

/-- Number of entries stored under a name. -/
def countKey {α : Type} (l : List (String × α)) (n : String) : ℕ :=
  (l.filter fun p => p.1 = n).length

theorem countKey_eq_zero {α : Type} (l : List (String × α)) (n : String)
    (h : ∀ p ∈ l, p.1 ≠ n) : countKey l n = 0 := by
  induction l with
  | nil => rfl
  | cons p rest ih =>
    simp only [countKey, List.filter_cons]
    rw [if_neg (by simpa using h p (by simp))]
    exact ih fun q hq => h q (by simp [hq])

theorem countKey_eq_one {α : Type} (l : List (String × α)) (n : String) (e : α)
    (hs : keysSorted l = true) (hl : mlookup l n = some e) : countKey l n = 1 := by
  induction l with
  | nil => simp [mlookup] at hl
  | cons p rest ih =>
    obtain ⟨k2, v2⟩ := p
    rw [keysSorted_cons] at hs
    obtain ⟨hall, hrest⟩ := hs
    simp only [mlookup] at hl
    by_cases h2 : k2 = n
    · simp only [countKey, List.filter_cons]
      rw [if_pos (by simpa using h2)]
      have hz : countKey rest n = 0 := by
        apply countKey_eq_zero
        intro q hq
        exact Ne.symm (ne_of_lt (h2 ▸ hall q hq))
      simpa [countKey] using hz
    · rw [if_neg h2] at hl
      simp only [countKey, List.filter_cons]
      rw [if_neg (by simpa using h2)]
      exact ih hrest hl

theorem mlookup_addObject {s : ObjectSet} {kn : String} {e : Entity} (n : String) :
    mlookup (OcctGeo3DObjectSet.addObject s kn (some e)) n =
      if n = kn then some e else mlookup s n := by
  by_cases hc : (mlookup s kn).isSome
  · show mlookup (minsert kn e (if (mlookup s kn).isSome then merase kn s else s)) n = _
    rw [if_pos hc, mlookup_minsert]
    by_cases h : n = kn
    · rw [if_pos h, if_pos h]
    · rw [if_neg h, if_neg h, mlookup_merase_ne s kn n h]
  · show mlookup (minsert kn e (if (mlookup s kn).isSome then merase kn s else s)) n = _
    rw [if_neg hc, mlookup_minsert]

theorem keysSorted_addObject (s : ObjectSet) (kn : String) (e : Entity)
    (hs : keysSorted s = true) :
    keysSorted (OcctGeo3DObjectSet.addObject s kn (some e)) = true := by
  show keysSorted (minsert kn e (if (mlookup s kn).isSome then merase kn s else s)) = true
  by_cases hc : (mlookup s kn).isSome
  · rw [if_pos hc]
    exact keysSorted_minsert _ kn e (keysSorted_merase s kn hs)
  · rw [if_neg hc]
    exact keysSorted_minsert s kn e hs

/-! ## Claims about the collection and the entity setters -/

/-- C3: adding under an existing name replaces (and destroys) the prior
occupant, leaving exactly one entity under that name, retrievable by get,
with no duplicate names; adding a null entity leaves the collection
unchanged. -/
theorem addObject_replaces (S : ObjectSet) (name : String) (A B : Entity)
    (hs : keysSorted S = true) :
    countKey (OcctGeo3DObjectSet.addObject
      (OcctGeo3DObjectSet.addObject S name (some A)) name (some B)) name = 1 ∧
    OcctGeo3DObjectSet.getObject (OcctGeo3DObjectSet.addObject
      (OcctGeo3DObjectSet.addObject S name (some A)) name (some B)) name = some B ∧
    ((OcctGeo3DObjectSet.addObject
      (OcctGeo3DObjectSet.addObject S name (some A)) name (some B)).map
        Prod.fst).Nodup ∧
    OcctGeo3DObjectSet.addObject S name none = S := by
  have hlook : mlookup (OcctGeo3DObjectSet.addObject
      (OcctGeo3DObjectSet.addObject S name (some A)) name (some B)) name = some B := by
    rw [mlookup_addObject, if_pos rfl]
  have hsorted : keysSorted (OcctGeo3DObjectSet.addObject
      (OcctGeo3DObjectSet.addObject S name (some A)) name (some B)) = true :=
    keysSorted_addObject _ name B (keysSorted_addObject S name A hs)
  exact ⟨countKey_eq_one _ name B hsorted hlook, hlook,
    keysSorted_nodup _ hsorted, rfl⟩

/-- A small concrete collection used by witnesses. -/
def sampleSet : ObjectSet :=
  [("a", Entity.tube { defaultTubeState with
      innerRadius := 3/4
      geo := { defaultGeoState with position := ⟨0, 0, -5⟩, opacity := 3/5 } }),
   ("b", Entity.cylinder defaultCylState)]

/-- Witness for C3 at a concrete collection. -/
theorem addObject_replaces_witness :
    keysSorted sampleSet = true ∧
    countKey (OcctGeo3DObjectSet.addObject
      (OcctGeo3DObjectSet.addObject sampleSet "a" (some (Entity.cylinder defaultCylState)))
      "a" (some (Entity.tube defaultTubeState))) "a" = 1 ∧
    OcctGeo3DObjectSet.getObject (OcctGeo3DObjectSet.addObject
      (OcctGeo3DObjectSet.addObject sampleSet "a" (some (Entity.cylinder defaultCylState)))
      "a" (some (Entity.tube defaultTubeState))) "a" = some (Entity.tube defaultTubeState) := by
  have hs : keysSorted sampleSet = true := by
    simp only [sampleSet, keysSorted, List.all_cons, List.all_nil,
      decide_eq_true_eq, String.lt_iff_toList_lt, Bool.and_true,
      Bool.and_eq_true, decide_eq_true_iff]
    decide
  exact ⟨hs, (addObject_replaces sampleSet "a" (Entity.cylinder defaultCylState)
      (Entity.tube defaultTubeState) hs).1,
    (addObject_replaces sampleSet "a" (Entity.cylinder defaultCylState)
      (Entity.tube defaultTubeState) hs).2.1⟩

/-- C9: every property setter called with a value equal to the current value
leaves the entity state unchanged (for setOpacity under the maintained
invariant that the stored opacity lies in [0, 1]). -/
theorem setters_equal_value_noop (g : GeoState) (t : TubeState) (c : CylState)
    (h0 : 0 ≤ g.opacity) (h1 : g.opacity ≤ 1) :
    OcctGeo3DObject.setPosition g g.position = g ∧
    OcctGeo3DObject.setRotation g g.rotation = g ∧
    OcctGeo3DObject.setScale g g.scale = g ∧
    OcctGeo3DObject.setDiffuseColor g g.diffuseColor = g ∧
    OcctGeo3DObject.setAmbientColor g g.ambientColor = g ∧
    OcctGeo3DObject.setSpecularColor g g.specularColor = g ∧
    OcctGeo3DObject.setShininess g g.shininess = g ∧
    OcctGeo3DObject.setOpacity g g.opacity = g ∧
    OcctGeo3DObject.setVisible g g.visible = g ∧
    OcctGeo3DObject.setShowEdges g g.showEdges = g ∧
    OcctGeo3DObject.setEdgeColor g g.edgeColor = g ∧
    OcctGeo3DObject.setEdgeWidth g g.edgeWidth = g ∧
    OcctTubeObject.setInnerRadius t t.innerRadius = t ∧
    OcctTubeObject.setOuterRadius t t.outerRadius = t ∧
    OcctTubeObject.setHeight t t.height = t ∧
    OcctCylinderObject.setRadius c c.radius = c ∧
    OcctCylinderObject.setLength c c.length = c := by
  refine ⟨rfl, rfl, rfl, rfl, rfl, rfl, rfl, ?_, rfl, rfl, rfl, rfl, ?_, ?_, ?_, ?_, ?_⟩
  · show { g with opacity := qBound 0 g.opacity 1 } = g
    rw [show qBound 0 g.opacity 1 = g.opacity from by
      rw [qBound, min_eq_right h1, max_eq_right h0]]
  · simp [OcctTubeObject.setInnerRadius]
  · simp [OcctTubeObject.setOuterRadius]
  · simp [OcctTubeObject.setHeight]
  · simp [OcctCylinderObject.setRadius]
  · simp [OcctCylinderObject.setLength]

/-- Witness for C9 at the default-constructed states. -/
theorem setters_equal_value_noop_witness :
    (0 ≤ defaultGeoState.opacity ∧ defaultGeoState.opacity ≤ 1) ∧
    OcctGeo3DObject.setOpacity defaultGeoState defaultGeoState.opacity =
      defaultGeoState ∧
    OcctTubeObject.setInnerRadius defaultTubeState defaultTubeState.innerRadius =
      defaultTubeState :=
  ⟨⟨by norm_num [defaultGeoState], by norm_num [defaultGeoState]⟩,
    (setters_equal_value_noop defaultGeoState defaultTubeState defaultCylState
      (by norm_num [defaultGeoState]) (by norm_num [defaultGeoState])).2.2.2.2.2.2.2.1,
    (setters_equal_value_noop defaultGeoState defaultTubeState defaultCylState
      (by norm_num [defaultGeoState]) (by norm_num [defaultGeoState])).2.2.2.2.2.2.2.2.2.2.2.2.1⟩

/-- C10: both deserializers clear their object before validating, so a failed
load (collection document lacking version/objects, drywell document lacking
one of the eight parameters) leaves an empty collection / an emptied system
rather than the pre-call contents. -/
theorem fromJson_failure_not_atomic (S : ObjectSet) (sys : OcctDrywellSystem)
    (jc jd : List (String × Json))
    (hc : (jContains jc "version" &&
      (jContains jc "objects" && jIsObj jc "objects")) = false)
    (hd : (jContains jd "wellRadius" && jContains jd "chamberDepth" &&
      jContains jd "aggregateDepth" && jContains jd "domainRadius" &&
      jContains jd "depthToGroundwater" && jContains jd "nr" &&
      jContains jd "nz_w" && jContains jd "nz_g") = false) :
    OcctGeo3DObjectSet.fromJson S jc = (false, []) ∧
    (OcctDrywellSystem.fromJson sys jd).1 = false ∧
    (OcctDrywellSystem.fromJson sys jd).2.tubes = [] ∧
    (OcctDrywellSystem.fromJson sys jd).2.belowWellTubes = [] ∧
    (OcctDrywellSystem.fromJson sys jd).2.chamberCylinder = none ∧
    (OcctDrywellSystem.fromJson sys jd).2.aggregateWellCylinder = none ∧
    (OcctDrywellSystem.fromJson sys jd).2.belowWellCylinder = none := by
  constructor
  · by_cases h1 : jContains jc "version"
    · have h2 : (jContains jc "objects" && jIsObj jc "objects") = false := by
        rw [h1] at hc
        simpa using hc
      simp [OcctGeo3DObjectSet.fromJson, h1, h2]
    · simp [OcctGeo3DObjectSet.fromJson, h1]
  · have : (OcctDrywellSystem.fromJson sys jd) =
        (false, OcctDrywellSystem.clear sys) := by
      simp [OcctDrywellSystem.fromJson, hd]
    rw [this]
    exact ⟨rfl, rfl, rfl, rfl, rfl, rfl⟩

/-- Witness for C10 on empty documents and populated prior states. -/
theorem fromJson_failure_not_atomic_witness :
    (jContains [] "version" &&
      (jContains [] "objects" && jIsObj [] "objects")) = false ∧
    (jContains [] "wellRadius" && jContains [] "chamberDepth" &&
      jContains [] "aggregateDepth" && jContains [] "domainRadius" &&
      jContains [] "depthToGroundwater" && jContains [] "nr" &&
      jContains [] "nz_w" && jContains [] "nz_g") = false ∧
    OcctGeo3DObjectSet.fromJson sampleSet [] = (false, []) ∧
    (OcctDrywellSystem.fromJson (generateAll sampleSystem) []).2.tubes = [] :=
  ⟨by decide, by decide,
    (fromJson_failure_not_atomic sampleSet (generateAll sampleSystem) [] []
      (by decide) (by decide)).1,
    (fromJson_failure_not_atomic sampleSet (generateAll sampleSystem) [] []
      (by decide) (by decide)).2.2.1⟩

/-! ## Collection deserialization lemmas (for the load loop) -/

/-- What one document entry decodes to: none for non-objects and for entries
the factory rejects. -/
def decodeEntry (v : Json) : Option Entity :=
  match v with
  | .obj data => OcctGeo3DObject.createFromJson data
  | _ => none

theorem mlookup_eq_none {α : Type} (l : List (String × α)) (n : String)
    (h : n ∉ l.map Prod.fst) : mlookup l n = none := by
  induction l with
  | nil => rfl
  | cons p rest ih =>
    obtain ⟨k2, v2⟩ := p
    simp only [List.map_cons, List.mem_cons] at h
    push_neg at h
    simp only [mlookup]
    rw [if_neg (fun hh : k2 = n => h.1 hh.symm)]
    exact ih h.2

theorem mem_of_mlookup_some {α : Type} (l : List (String × α)) (n : String)
    (v : α) (h : mlookup l n = some v) : n ∈ l.map Prod.fst := by
  by_contra hmem
  rw [mlookup_eq_none l n hmem] at h
  exact Option.noConfusion h

theorem mlookup_loadEntry (acc : ObjectSet) (p : String × Json) (n : String) :
    mlookup (OcctGeo3DObjectSet.loadEntry acc p) n =
      if n = p.1 then (decodeEntry p.2).elim (mlookup acc n) some
      else mlookup acc n := by
  obtain ⟨k, v⟩ := p
  have hsplit : OcctGeo3DObjectSet.loadEntry acc (k, v) =
      match decodeEntry v with
      | some e => OcctGeo3DObjectSet.addObject acc k (some e)
      | none => acc := by
    cases v <;> rfl
  rw [hsplit]
  cases hde : decodeEntry v with
  | none => simp
  | some e =>
    simp only [Option.elim]
    rw [mlookup_addObject]

theorem foldl_loadEntry_none (l : List (String × Json)) (acc : ObjectSet)
    (n : String) (h : mlookup l n = none) :
    mlookup (l.foldl OcctGeo3DObjectSet.loadEntry acc) n = mlookup acc n := by
  induction l generalizing acc with
  | nil => rfl
  | cons p rest ih =>
    obtain ⟨k, v⟩ := p
    simp only [mlookup] at h
    by_cases hk : k = n
    · rw [if_pos hk] at h
      exact Option.noConfusion h
    · rw [if_neg hk] at h
      rw [List.foldl_cons, ih _ h, mlookup_loadEntry]
      rw [if_neg (fun hh : n = k => hk hh.symm)]

theorem foldl_loadEntry_some (l : List (String × Json)) (acc : ObjectSet)
    (n : String) (v : Json)
    (hnd : (l.map Prod.fst).Nodup)
    (hacc : ∀ kk ∈ l.map Prod.fst, mlookup acc kk = none)
    (h : mlookup l n = some v) :
    mlookup (l.foldl OcctGeo3DObjectSet.loadEntry acc) n = decodeEntry v := by
  induction l generalizing acc with
  | nil => simp [mlookup] at h
  | cons p rest ih =>
    obtain ⟨k, w⟩ := p
    simp only [List.map_cons, List.nodup_cons] at hnd
    simp only [mlookup] at h
    by_cases hk : k = n
    · rw [if_pos hk] at h
      cases h
      subst hk
      have hrest : mlookup rest k = none :=
        mlookup_eq_none rest k hnd.1
      rw [List.foldl_cons, foldl_loadEntry_none rest _ k hrest,
        mlookup_loadEntry]
      rw [if_pos rfl]
      have haccn : mlookup acc k = none := hacc k (by simp)
      cases hde : decodeEntry v <;> simp [hde, haccn]
    · rw [if_neg hk] at h
      rw [List.foldl_cons]
      apply ih _ hnd.2 _ h
      intro kk hkk
      rw [mlookup_loadEntry]
      rw [if_neg (fun hh : kk = k => hnd.1 (hh ▸ hkk))]
      exact hacc kk (by simp [hkk])

/-- C4: collection fromJson fails exactly when the document lacks a version
field or lacks an objects field (or objects is not an object); on success,
every entry is decoded through the factory and inserted under its document
key, with non-object entries, unregistered types and rejected payloads
silently skipped. -/
theorem setFromJson_spec (S : ObjectSet) (j : List (String × Json))
    (hnd : ((jObj j "objects").map Prod.fst).Nodup) :
    ((OcctGeo3DObjectSet.fromJson S j).1 = false ↔
      (jContains j "version" = false ∨ jContains j "objects" = false ∨
        jIsObj j "objects" = false)) ∧
    ((OcctGeo3DObjectSet.fromJson S j).1 = true →
      ∀ n, OcctGeo3DObjectSet.getObject (OcctGeo3DObjectSet.fromJson S j).2 n =
        (mlookup (jObj j "objects") n).elim none decodeEntry) := by
  by_cases h1 : jContains j "version"
  · by_cases h2 : (jContains j "objects" && jIsObj j "objects") = true
    · have hres : OcctGeo3DObjectSet.fromJson S j =
          (true, (jObj j "objects").foldl OcctGeo3DObjectSet.loadEntry []) := by
        simp only [OcctGeo3DObjectSet.fromJson, h1, h2]
        simp
      rw [hres]
      constructor
      · simp only [Bool.and_eq_true] at h2
        simp [h1, h2.1, h2.2]
      · intro _ n
        show mlookup ((jObj j "objects").foldl OcctGeo3DObjectSet.loadEntry []) n = _
        cases hl : mlookup (jObj j "objects") n with
        | none =>
          rw [foldl_loadEntry_none _ _ n hl]
          rfl
        | some v =>
          rw [foldl_loadEntry_some _ _ n v hnd (by intro kk _; rfl) hl]
          rfl
    · have hres : OcctGeo3DObjectSet.fromJson S j = (false, []) := by
        simp only [OcctGeo3DObjectSet.fromJson, h1]
        simp [h2]
      rw [hres]
      constructor
      · simp only [Bool.and_eq_true] at h2
        push_neg at h2
        constructor
        · intro _
          by_cases hco : jContains j "objects"
          · exact Or.inr (Or.inr (Bool.eq_false_iff.mpr fun hio => h2 hco hio))
          · exact Or.inr (Or.inl (Bool.eq_false_iff.mpr hco))
        · intro _
          rfl
      · intro hfalse
        exact absurd hfalse (by simp)
  · have hres : OcctGeo3DObjectSet.fromJson S j = (false, []) := by
      simp [OcctGeo3DObjectSet.fromJson, h1]
    rw [hres]
    constructor
    · constructor
      · intro _
        exact Or.inl (Bool.eq_false_iff.mpr h1)
      · intro _
        rfl
    · intro hfalse
      exact absurd hfalse (by simp)

/-- A collection document with one unregistered "Sphere" entry and one Tube
entry, used as the C4 witness input. -/
def sampleDoc : List (String × Json) :=
  [ ("version", .str "1.0")
  , ("objectCount", .num 2)
  , ("objects", .obj
      [ ("s", .obj [("type", .str "Sphere")])
      , ("t", .obj (Entity.toJson (Entity.tube defaultTubeState))) ]) ]

/-- Witness for C4 on a concrete document holding an unregistered type. -/
theorem setFromJson_spec_witness :
    ((jObj sampleDoc "objects").map Prod.fst).Nodup ∧
    ((OcctGeo3DObjectSet.fromJson sampleSet sampleDoc).1 = false ↔
      (jContains sampleDoc "version" = false ∨
        jContains sampleDoc "objects" = false ∨
        jIsObj sampleDoc "objects" = false)) ∧
    ((OcctGeo3DObjectSet.fromJson sampleSet sampleDoc).1 = true →
      ∀ n, OcctGeo3DObjectSet.getObject
          (OcctGeo3DObjectSet.fromJson sampleSet sampleDoc).2 n =
        (mlookup (jObj sampleDoc "objects") n).elim none decodeEntry) :=
  ⟨by decide,
    (setFromJson_spec sampleSet sampleDoc (by decide)).1,
    (setFromJson_spec sampleSet sampleDoc (by decide)).2⟩

/-! ## Round-trip of entity serialization -/

theorem qBound_self (v : ℚ) (h0 : 0 ≤ v) (h1 : v ≤ 1) : qBound 0 v 1 = v := by
  rw [qBound, min_eq_right h1, max_eq_right h0]

theorem tube_setDimensions_eq (t : TubeState) (ir or2 h : ℚ) :
    OcctTubeObject.setDimensions t ir or2 h =
      { t with innerRadius := ir, outerRadius := or2, height := h } := by
  simp only [OcctTubeObject.setDimensions]
  by_cases h1 : t.innerRadius ≠ ir <;> by_cases h2 : t.outerRadius ≠ or2 <;>
    by_cases h3 : t.height ≠ h <;>
    simp_all <;> cases t <;> simp_all

theorem cyl_setDimensions_eq (c : CylState) (r l : ℚ) :
    OcctCylinderObject.setDimensions c r l =
      { c with radius := r, length := l } := by
  simp only [OcctCylinderObject.setDimensions]
  by_cases h1 : c.radius ≠ r <;> by_cases h2 : c.length ≠ l <;>
    simp_all <;> cases c <;> simp_all

/-- The one state difference a serialization round trip introduces: the edge
color is written without its alpha channel, so reloading restores it with
alpha 255.  All transform, material and shape parameters are preserved. -/
def patchGeo (g : GeoState) : GeoState :=
  { g with edgeColor := { g.edgeColor with a := 255 } }

/-- patchGeo lifted to an entity. -/
def patchEntity : Entity → Entity
  | .tube t => .tube { t with geo := patchGeo t.geo }
  | .cylinder c => .cylinder { c with geo := patchGeo c.geo }

theorem createFromJson_toJson (e : Entity)
    (h0 : 0 ≤ (Entity.geo e).opacity) (h1 : (Entity.geo e).opacity ≤ 1) :
    OcctGeo3DObject.createFromJson (Entity.toJson e) = some (patchEntity e) := by
  cases e with
  | tube t =>
    simp only [Entity.geo] at h0 h1
    simp [Entity.toJson, OcctTubeObject.toJson, geoJsonFields, vec3Json,
      colorJson4, colorJson3, List.cons_append, List.nil_append,
      OcctGeo3DObject.createFromJson, OcctTubeObject.fromJson, loadGeoFromJson,
      jContains, jStr, jNum, jInt, jBool, jObj, mlookup, patchEntity, patchGeo,
      OcctGeo3DObject.setPosition, OcctGeo3DObject.setRotation,
      OcctGeo3DObject.setScale, OcctGeo3DObject.setDiffuseColor,
      OcctGeo3DObject.setAmbientColor, OcctGeo3DObject.setSpecularColor,
      OcctGeo3DObject.setShininess, OcctGeo3DObject.setOpacity,
      OcctGeo3DObject.setVisible, OcctGeo3DObject.setShowEdges,
      OcctGeo3DObject.setEdgeColor, OcctGeo3DObject.setEdgeWidth,
      tube_setDimensions_eq, Rat.den_intCast, Rat.num_intCast,
      qBound_self _ h0 h1]
  | cylinder c =>
    simp only [Entity.geo] at h0 h1
    simp [Entity.toJson, OcctCylinderObject.toJson, geoJsonFields, vec3Json,
      colorJson4, colorJson3, List.cons_append, List.nil_append,
      OcctGeo3DObject.createFromJson, OcctCylinderObject.fromJson, loadGeoFromJson,
      jContains, jStr, jNum, jInt, jBool, jObj, mlookup, patchEntity, patchGeo,
      OcctGeo3DObject.setPosition, OcctGeo3DObject.setRotation,
      OcctGeo3DObject.setScale, OcctGeo3DObject.setDiffuseColor,
      OcctGeo3DObject.setAmbientColor, OcctGeo3DObject.setSpecularColor,
      OcctGeo3DObject.setShininess, OcctGeo3DObject.setOpacity,
      OcctGeo3DObject.setVisible, OcctGeo3DObject.setShowEdges,
      OcctGeo3DObject.setEdgeColor, OcctGeo3DObject.setEdgeWidth,
      cyl_setDimensions_eq, Rat.den_intCast, Rat.num_intCast,
      qBound_self _ h0 h1]

/-! ## Round-trip of the whole collection -/

theorem minsert_append {α : Type} (l : List (String × α)) (k : String) (v : α)
    (h : ∀ p ∈ l, p.1 < k) : minsert k v l = l ++ [(k, v)] := by
  induction l with
  | nil => rfl
  | cons p rest ih =>
    obtain ⟨k2, v2⟩ := p
    have hk2 : k2 < k := h (k2, v2) (by simp)
    simp only [minsert]
    rw [if_neg (lt_asymm hk2), if_neg (ne_of_gt hk2)]
    rw [ih fun q hq => h q (by simp [hq])]
    simp

theorem mlookup_eq_none_of_lt {α : Type} {l : List (String × α)} {k : String}
    (h : ∀ p ∈ l, p.1 < k) : mlookup l k = none := by
  apply mlookup_eq_none
  intro hmem
  rcases List.mem_map.mp hmem with ⟨p, hp, hpk⟩
  exact absurd (hpk ▸ h p hp) (lt_irrefl k)

theorem mlookup_map {α β : Type} (l : List (String × α)) (f : α → β) (n : String) :
    mlookup (l.map fun p => (p.1, f p.2)) n = (mlookup l n).map f := by
  induction l with
  | nil => rfl
  | cons p rest ih =>
    obtain ⟨k, v⟩ := p
    simp only [List.map_cons, mlookup]
    by_cases h : k = n
    · rw [if_pos h, if_pos h]
      rfl
    · rw [if_neg h, if_neg h, ih]

theorem foldl_minsert_sorted : ∀ S : ObjectSet, keysSorted S = true →
    ∀ acc : List (String × Json), (∀ p ∈ acc, ∀ q ∈ S, p.1 < q.1) →
    S.foldl (fun acc p => minsert p.1 (Json.obj (Entity.toJson p.2)) acc) acc =
      acc ++ S.map fun p => (p.1, Json.obj (Entity.toJson p.2)) := by
  intro S
  induction S with
  | nil =>
    intro _ acc _
    simp
  | cons p rest ih =>
    intro hs acc hacc
    obtain ⟨k, e⟩ := p
    rw [keysSorted_cons] at hs
    obtain ⟨hall, hrest⟩ := hs
    rw [List.foldl_cons]
    rw [show minsert k (Json.obj (Entity.toJson e)) acc =
        acc ++ [(k, Json.obj (Entity.toJson e))] from
      minsert_append acc k _ fun q hq => hacc q hq (k, e) (by simp)]
    rw [ih hrest _ ?_]
    · simp
    · intro q hq q2 hq2
      rcases List.mem_append.mp hq with h | h
      · exact hacc q h q2 (by simp [hq2])
      · rw [List.mem_singleton.mp h]
        exact hall q2 hq2

theorem foldl_loadEntry_sorted : ∀ S : ObjectSet, keysSorted S = true →
    (∀ p ∈ S, 0 ≤ (Entity.geo p.2).opacity ∧ (Entity.geo p.2).opacity ≤ 1) →
    ∀ acc : ObjectSet, (∀ p ∈ acc, ∀ q ∈ S, p.1 < q.1) →
    ((S.map fun p => (p.1, Json.obj (Entity.toJson p.2))).foldl
        OcctGeo3DObjectSet.loadEntry acc) =
      acc ++ S.map fun p => (p.1, patchEntity p.2) := by
  intro S
  induction S with
  | nil =>
    intro _ _ acc _
    simp
  | cons p rest ih =>
    intro hs hop acc hacc
    obtain ⟨k, e⟩ := p
    rw [keysSorted_cons] at hs
    obtain ⟨hall, hrest⟩ := hs
    rw [List.map_cons, List.foldl_cons]
    have hload : OcctGeo3DObjectSet.loadEntry acc (k, Json.obj (Entity.toJson e)) =
        acc ++ [(k, patchEntity e)] := by
      show (match OcctGeo3DObject.createFromJson (Entity.toJson e) with
        | some e2 => OcctGeo3DObjectSet.addObject acc k (some e2)
        | none => acc) = acc ++ [(k, patchEntity e)]
      rw [createFromJson_toJson e (hop (k, e) (by simp)).1 (hop (k, e) (by simp)).2]
      show OcctGeo3DObjectSet.addObject acc k (some (patchEntity e)) = _
      have hnone : mlookup acc k = none :=
        mlookup_eq_none_of_lt fun q hq => hacc q hq (k, e) (by simp)
      show minsert k (patchEntity e)
        (if (mlookup acc k).isSome then merase k acc else acc) = _
      rw [hnone]
      show minsert k (patchEntity e) acc = _
      exact minsert_append acc k _ fun q hq => hacc q hq (k, e) (by simp)
    rw [hload]
    rw [ih hrest (fun q hq => hop q (by simp [hq])) _ ?_]
    · simp
    · intro q hq q2 hq2
      rcases List.mem_append.mp hq with h | h
      · exact hacc q h q2 (by simp [hq2])
      · rw [List.mem_singleton.mp h]
        exact hall q2 hq2

/-- The shape-specific numeric parameters of an entity. -/
def shapeParams : Entity → List ℚ
  | .tube t => [t.innerRadius, t.outerRadius, t.height]
  | .cylinder c => [c.radius, c.length]

/-- C2: serializing a populated collection and deserializing the result
succeeds and yields a collection with the same names, the same per-entity
type, and equal transform, material and shape parameters for each name
(stated under the QMap key invariant and the maintained opacity-in-[0,1]
invariant). -/
theorem collection_roundTrip (S : ObjectSet)
    (hs : keysSorted S = true)
    (hop : ∀ p ∈ S, 0 ≤ (Entity.geo p.2).opacity ∧ (Entity.geo p.2).opacity ≤ 1) :
    (OcctGeo3DObjectSet.fromJson [] (OcctGeo3DObjectSet.toJson S)).1 = true ∧
    ((OcctGeo3DObjectSet.fromJson [] (OcctGeo3DObjectSet.toJson S)).2.map Prod.fst
      = S.map Prod.fst) ∧
    ∀ n e, mlookup S n = some e →
      ∃ e2, mlookup
          (OcctGeo3DObjectSet.fromJson [] (OcctGeo3DObjectSet.toJson S)).2 n
          = some e2 ∧
        Entity.objectType e2 = Entity.objectType e ∧
        (Entity.geo e2).position = (Entity.geo e).position ∧
        (Entity.geo e2).rotation = (Entity.geo e).rotation ∧
        (Entity.geo e2).scale = (Entity.geo e).scale ∧
        (Entity.geo e2).diffuseColor = (Entity.geo e).diffuseColor ∧
        (Entity.geo e2).ambientColor = (Entity.geo e).ambientColor ∧
        (Entity.geo e2).specularColor = (Entity.geo e).specularColor ∧
        (Entity.geo e2).shininess = (Entity.geo e).shininess ∧
        (Entity.geo e2).opacity = (Entity.geo e).opacity ∧
        shapeParams e2 = shapeParams e := by
  have hobj : S.foldl
      (fun acc p => minsert p.1 (Json.obj (Entity.toJson p.2)) acc) [] =
      S.map fun p => (p.1, Json.obj (Entity.toJson p.2)) :=
    foldl_minsert_sorted S hs [] (by simp)
  have hres : OcctGeo3DObjectSet.fromJson [] (OcctGeo3DObjectSet.toJson S) =
      (true, S.map fun p => (p.1, patchEntity p.2)) := by
    simp only [OcctGeo3DObjectSet.toJson, hobj]
    simp [OcctGeo3DObjectSet.fromJson, jContains, jIsObj, jObj, mlookup]
    exact foldl_loadEntry_sorted S hs hop [] (by simp)
  rw [hres]
  refine ⟨rfl, by simp, ?_⟩
  intro n e hne
  refine ⟨patchEntity e, ?_, ?_⟩
  · show mlookup (S.map fun p => (p.1, patchEntity p.2)) n = some (patchEntity e)
    rw [mlookup_map, hne]
    rfl
  · cases e <;>
      simp [patchEntity, patchGeo, Entity.geo, Entity.objectType, shapeParams]

/-- Witness for C2 at a concrete two-entity collection. -/
theorem collection_roundTrip_witness :
    keysSorted sampleSet = true ∧
    (∀ p ∈ sampleSet,
      0 ≤ (Entity.geo p.2).opacity ∧ (Entity.geo p.2).opacity ≤ 1) ∧
    (OcctGeo3DObjectSet.fromJson [] (OcctGeo3DObjectSet.toJson sampleSet)).1 = true ∧
    ((OcctGeo3DObjectSet.fromJson []
        (OcctGeo3DObjectSet.toJson sampleSet)).2.map Prod.fst
      = sampleSet.map Prod.fst) := by
  have hs : keysSorted sampleSet = true := by
    simp only [sampleSet, keysSorted, List.all_cons, List.all_nil,
      decide_eq_true_eq, String.lt_iff_toList_lt, Bool.and_true,
      Bool.and_eq_true, decide_eq_true_iff]
    decide
  have hop : ∀ p ∈ sampleSet,
      0 ≤ (Entity.geo p.2).opacity ∧ (Entity.geo p.2).opacity ≤ 1 := by
    intro p hp
    rcases List.mem_cons.mp hp with rfl | hp2
    · norm_num [Entity.geo, defaultGeoState]
    rcases List.mem_cons.mp hp2 with rfl | hp3
    · norm_num [Entity.geo, defaultCylState, defaultGeoState]
    · exact absurd hp3 (List.not_mem_nil p)
  exact ⟨hs, hop, (collection_roundTrip sampleSet hs hop).1,
    (collection_roundTrip sampleSet hs hop).2.1⟩

end DryWell
